import Mathlib

/-!
Verification development for the draw-trongle-3ds repository.

The repository is a Rust 3DS rendering demo.  The definitions below are a
shallow embedding of the scene/material/texture model and of the OBJ
importer (src/src/model/*.rs, src/src/obj.rs, src/src/main.rs):

  * f32 values are modelled as exact rationals; every numeric constant the
    claims mention (480/512, 395/512, 0.25, 0.3, the f32 value of TAU) is a
    dyadic rational that f32 represents exactly.
  * the effectful GPU calls made by Shape::draw and Model::draw are
    modelled as a trace of GPU commands, in the order the code issues them.
  * Rust panics (unwrap, assert, todo, out-of-range indexing) are modelled
    by Option: none means the process aborts, some r means it returns r.
  * the environment of parse_obj (the obj crate loader, the filesystem and
    the GPU allocator C3D_TexInit) is an explicit record of oracles.
-/

namespace DrawTrongle

/-- f32 2-vector (src/src/main.rs, struct Vec2). -/
structure Vec2 where
  x : ℚ
  y : ℚ
deriving DecidableEq

def Vec2.new (x y : ℚ) : Vec2 := ⟨x, y⟩

/-- f32 3-vector (src/src/main.rs, struct Vec3). -/
structure Vec3 where
  x : ℚ
  y : ℚ
  z : ℚ
deriving DecidableEq

def Vec3.new (x y z : ℚ) : Vec3 := ⟨x, y, z⟩

/-- Vertex: position plus texture coordinate (src/src/main.rs, struct Vert). -/
structure Vert where
  pos : Vec3
  tex : Vec2
deriving DecidableEq

/-- Packed byte colour (src/src/model/colour.rs, struct Colour([u8;4])). -/
structure Colour where
  r : ℕ
  g : ℕ
  b : ℕ
  a : ℕ
deriving DecidableEq

def Colour.new (r g b a : ℕ) : Colour := ⟨r, g, b, a⟩

/-- Raw pixel buffer plus dimensions (src/src/model/texture.rs).
Bytes are modelled as naturals below 256. -/
structure Texture where
  width : ℕ
  height : ℕ
  data : List ℕ
deriving DecidableEq

/-- Texture::new stores its arguments unchecked (src/src/model/texture.rs). -/
def Texture.new (width height : ℕ) (data : List ℕ) : Texture :=
  ⟨width, height, data⟩

/-- GPU texture colour formats (src/src/model/material.rs, enum TextureColour). -/
inductive TextureColour where
  | rgba8 | rgb8 | rgba5551 | rgb565 | rgba4 | la8 | hiLo8
  | l8 | a8 | la4 | l4 | a4 | etc1 | etc1A4
deriving DecidableEq

/-- Bits per pixel of each format (src/src/model/material.rs, TextureColour::size). -/
def TextureColour.size : TextureColour → ℕ
  | .rgba8 => 32
  | .rgb8 => 24
  | .rgba5551 | .rgb565 | .rgba4 | .la8 | .hiLo8 => 16
  | .l8 | .a8 | .la4 | .etc1A4 => 8
  | .l4 | .a4 | .etc1 => 4

/-- A GPU-resident texture handle (src/src/model/material.rs, struct C3DTex).
The C3D_Tex object records the dimensions and format it was initialised with. -/
structure C3DTex where
  width : ℕ
  height : ℕ
  fmt : TextureColour
deriving DecidableEq

/-- Success oracle for C3D_TexInit: whether GPU texture allocation succeeds
for the requested dimensions and format. -/
abbrev AllocFn := ℕ → ℕ → TextureColour → Bool

/-- C3DTex::new (src/src/model/material.rs): C3D_TexInit either allocates a
texture with the requested dimensions and format or reports an error. -/
def C3DTex.new (ok : Bool) (width height : ℕ) (format : TextureColour) : Option C3DTex :=
  if ok then some ⟨width, height, format⟩ else none

/-- C3DTex::upload (src/src/model/material.rs): asserts
buf.len() >= width*height*size/8 for the stored dimensions and format, then
hands the buffer to C3D_TexUpload.  none models the assertion panic, some ()
means the GPU upload call was reached. -/
def C3DTex.upload (t : C3DTex) (buf : List ℕ) : Option Unit :=
  if t.width * t.height * t.fmt.size / 8 ≤ buf.length then some () else none

/-- Material (src/src/model/material.rs, struct Material). -/
structure Material where
  texture : Option Texture
  colour : Option Colour
  ambient : Option Colour
  vertexColours : Bool
  citroTex : Option C3DTex
deriving DecidableEq

/-- Material::make_texture (src/src/model/material.rs): derives a GPU texture
from the raw texture if one is present.  Allocation failure is swallowed by
.ok()? and yields none; a successful allocation is followed by an upload,
whose assertion may panic (outer none). -/
def Material.make_texture (alloc : AllocFn) : Option Texture → Option (Option C3DTex)
  | none => some none
  | some tex =>
    match C3DTex.new (alloc tex.width tex.height .rgba8) tex.width tex.height .rgba8 with
    | none => some none
    | some t =>
      match t.upload tex.data with
      | some _ => some (some t)
      | none => none

/-- Material::new (src/src/model/material.rs): eagerly derives the GPU
texture, then stores all fields.  none models a panic inside make_texture. -/
def Material.new (alloc : AllocFn) (texture : Option Texture) (colour ambient : Option Colour)
    (vertexColours : Bool) : Option Material :=
  match Material.make_texture alloc texture with
  | none => none
  | some ct => some ⟨texture, colour, ambient, vertexColours, ct⟩

/-- Primitive topology (citro3d buffer::Primitive). -/
inductive Primitive where
  | triangles | triangleStrip | triangleFan | geometryPrim
deriving DecidableEq

/-- Shape (src/src/model/shape.rs), monomorphised at the vertex type Vert
used by the program. -/
structure Shape where
  mat : Material
  primType : Primitive
  verts : List Vert
deriving DecidableEq

/-- Shape::new (src/src/model/shape.rs): copies the vertex slice into a
linear-memory buffer and records the attribute info. -/
def Shape.new (mat : Material) (primType : Primitive) (verts : List Vert) : Shape :=
  ⟨mat, primType, verts⟩

/-- Combiner source selector (citro3d texenv::Source), restricted to the
sources this program uses. -/
inductive TexSource where
  | texture0 | primaryColor
deriving DecidableEq

/-- Combiner function (citro3d texenv::CombineFunc), restricted likewise. -/
inductive CombineFunc where
  | replace | modulate
deriving DecidableEq

/-- In-place operations applied to a Matrix4 (citro3d math::Matrix4).  The
matrix is modelled symbolically as the list of operations applied to the
identity, in application order. -/
inductive MatOp where
  | scale (x y z : ℚ)
  | rotateX (angle : ℚ)
  | rotateY (angle : ℚ)
  | rotateZ (angle : ℚ)
  | translate (x y z : ℚ)
deriving DecidableEq

abbrev Matrix4 := List MatOp

def Matrix4.identity : Matrix4 := []

def Matrix4.scale (m : Matrix4) (x y z : ℚ) : Matrix4 := m ++ [MatOp.scale x y z]

def Matrix4.rotate_x (m : Matrix4) (angle : ℚ) : Matrix4 := m ++ [MatOp.rotateX angle]

def Matrix4.rotate_y (m : Matrix4) (angle : ℚ) : Matrix4 := m ++ [MatOp.rotateY angle]

def Matrix4.rotate_z (m : Matrix4) (angle : ℚ) : Matrix4 := m ++ [MatOp.rotateZ angle]

def Matrix4.translate (m : Matrix4) (x y z : ℚ) : Matrix4 := m ++ [MatOp.translate x y z]

/-- GPU commands issued by the draw path, in issue order. -/
inductive GpuCmd where
  | texBind (unit : ℕ) (tex : C3DTex)
  | texenvReset (stage : ℕ)
  | texenvSrc (stage : ℕ) (s1 : TexSource) (s2 : Option TexSource) (s3 : Option TexSource)
  | texenvFunc (stage : ℕ) (f : CombineFunc)
  | bindVertexUniform (slot : ℕ) (m : Matrix4)
  | setAttrInfo
  | drawArrays (prim : Primitive) (count : ℕ)
deriving DecidableEq

/-- Shape::draw (src/src/model/shape.rs): re-derives the GPU texture from the
material texture, configures texenv stage 0 according to the material state
(three mutually exclusive combiner configurations), then uploads the vertex
buffer and issues the draw call.  none models the panic of the upload
assertion inside make_texture. -/
def Shape.draw (alloc : AllocFn) (s : Shape) : Option (List GpuCmd) :=
  match Material.make_texture alloc s.mat.texture with
  | none => none
  | some otex =>
    let combiner : List GpuCmd :=
      match otex with
      | some t =>
        GpuCmd.texBind 0 t ::
          (if s.mat.vertexColours then
            [GpuCmd.texenvSrc 0 .texture0 (some .primaryColor) none,
             GpuCmd.texenvFunc 0 .modulate]
          else
            [GpuCmd.texenvSrc 0 .texture0 none none,
             GpuCmd.texenvFunc 0 .replace])
      | none =>
        [GpuCmd.texenvReset 0,
         GpuCmd.texenvSrc 0 .primaryColor none none,
         GpuCmd.texenvFunc 0 .replace]
    some (combiner ++ [GpuCmd.setAttrInfo, GpuCmd.drawArrays s.primType s.verts.length])

/-- Uniform slots resolved from the vertex shader (src/src/main.rs, struct
Uniforms).  Indices are modelled as naturals. -/
structure Uniforms where
  modelMatrix : ℕ
  cameraMatrix : ℕ
  projectionMatrix : ℕ
  lightColour : ℕ
  materialEmission : ℕ
  materialAmbient : ℕ
  materialDiffuse : ℕ
  materialSpecular : ℕ

/-- Model (src/src/model/mod.rs, struct Model), monomorphised at Vert. -/
structure Model where
  pos : Vec3
  rot : Vec3
  shapes : List Shape
deriving DecidableEq

def Model.new (pos rot : Vec3) (shapes : List Shape) : Model := ⟨pos, rot, shapes⟩

/-- Map with Rust panic propagation: an iterator map collected into a Vec,
where evaluating the closure may panic. -/
def panicMap (f : α → Option β) : List α → Option (List β)
  | [] => some []
  | x :: xs =>
    match f x, panicMap f xs with
    | some y, some ys => some (y :: ys)
    | _, _ => none

/-- Model::draw (src/src/model/mod.rs): builds the world transform by the
fixed operation sequence, binds it to the model-matrix uniform, then draws
every shape in list order. -/
def Model.draw (alloc : AllocFn) (u : Uniforms) (m : Model) : Option (List GpuCmd) :=
  let transform :=
    ((((Matrix4.identity.scale 1 1 1).rotate_x (-m.rot.y)).rotate_y m.rot.x).rotate_z
        m.rot.z).translate m.pos.x m.pos.y m.pos.z
  match panicMap (Shape.draw alloc) m.shapes with
  | none => none
  | some cs => some (GpuCmd.bindVertexUniform u.modelMatrix transform :: cs.flatten)

/-!  OBJ importer (src/src/obj.rs).  The obj crate output consumed by
parse_obj is modelled as plain data; the filesystem and the GPU allocator
are oracles in an environment record. -/

/-- One vertex reference of a face: position index plus optional
texture-coordinate index (obj crate IndexTuple; the normal index is unused
by this program). -/
structure IndexTuple where
  pos : ℕ
  tex : Option ℕ
deriving DecidableEq

/-- One polygon face: the ordered list of vertex references (obj crate
SimplePolygon; the code accesses it as p.0). -/
structure Poly where
  idx : List IndexTuple
deriving DecidableEq

/-- Inline MTL material, restricted to the fields this program reads:
diffuse coefficient kd and diffuse texture map path map_kd. -/
structure MtlData where
  kd : Option (ℚ × ℚ × ℚ)
  map_kd : Option String
deriving DecidableEq

/-- A group material reference: indirect by name, or inline MTL data
(obj crate ObjMaterial). -/
inductive ObjMaterial where
  | ref (name : String)
  | mtl (m : MtlData)
deriving DecidableEq

/-- One polygon group of an object, restricted to the fields parse_obj
reads. -/
structure Group where
  material : Option ObjMaterial
  polys : List Poly
deriving DecidableEq

/-- One OBJ object, restricted to the fields parse_obj reads. -/
structure Object where
  groups : List Group
deriving DecidableEq

/-- Parsed OBJ document (obj crate ObjData), restricted to the fields
parse_obj reads. -/
structure ObjData where
  position : List (ℚ × ℚ × ℚ)
  texture : List (ℚ × ℚ)
  objects : List Object
deriving DecidableEq

/-- Environment of parse_obj: the obj crate load result for the given path
(none: the file cannot be read or parsed), the load_mtls outcome, the raw
filesystem reads of texture-map files, and the GPU allocator. -/
structure Env where
  load : Option ObjData
  mtlsOk : Bool
  readFile : String → Option (List ℕ)
  alloc : AllocFn

/-- Position array element to Vec3 (src/src/obj.rs, the vertices map). -/
def vec3OfArr (e : ℚ × ℚ × ℚ) : Vec3 := ⟨e.1, e.2.1, e.2.2⟩

/-- Texture-coordinate remap (src/src/obj.rs, the tex_coords map):
(u, v) goes to (u*(480/512), 1 - v*(395/512)). -/
def texRemap (e : ℚ × ℚ) : Vec2 := ⟨e.1 * (480 / 512), 1 - e.2 * (395 / 512)⟩

/-- Rust saturating float-to-u8 cast used on kd channels:
(x * 255.0) as u8 truncates toward zero and clamps to 0..=255. -/
def u8OfF32 (q : ℚ) : ℕ := min (Int.toNat ⌊q⌋) 255

/-- The substituted placeholder texture (src/src/obj.rs): 64 by 64, every
byte zero, hence fully transparent RGBA8. -/
def placeholderTex : Texture := Texture.new 64 64 (List.replicate (64 * 64 * 4) 0)

/-- Material resolution of one group (src/src/obj.rs, the (col, tex) match):
an indirect material reference hits todo! (panic); an inline material
yields the optional diffuse colour with alpha forced to 0xFF and the
optional 512 by 512 texture read from the map_kd file (read failure
panics); no material yields neither. -/
def resolveMat (readFile : String → Option (List ℕ)) :
    Option ObjMaterial → Option (Option Colour × Option Texture)
  | none => some (none, none)
  | some (.ref _) => none
  | some (.mtl m) =>
    let col := m.kd.map fun rgb =>
      Colour.new (u8OfF32 (rgb.1 * 255)) (u8OfF32 (rgb.2.1 * 255)) (u8OfF32 (rgb.2.2 * 255)) 0xFF
    match m.map_kd with
    | none => some (col, none)
    | some t =>
      match readFile t with
      | none => none
      | some bytes => some (col, some (Texture.new 512 512 bytes))

/-- Face conversion (src/src/obj.rs, the flat_map body): lazily take the
first three vertex references, index into the remapped vertex and
texture-coordinate arrays (out-of-range indexing panics), default a
missing texture-coordinate index to (0, 0), and zip into vertices. -/
def faceVerts (vertices : List Vec3) (texCoords : List Vec2) (p : Poly) :
    Option (List Vert) :=
  match panicMap (fun i => vertices[i.pos]?) (p.idx.take 3),
      panicMap (fun i =>
        match i.tex with
        | none => some (Vec2.new 0 0)
        | some t => texCoords[t]?) (p.idx.take 3) with
  | some vs, some ts => some ((vs.zip ts).map fun vt => ⟨vt.1, vt.2⟩)
  | _, _ => none

/-- Group conversion (src/src/obj.rs): resolve the material, convert all
faces, then build the Shape with the texture defaulted to the placeholder,
no ambient colour, and vertex colours enabled. -/
def processGroup (alloc : AllocFn) (readFile : String → Option (List ℕ))
    (vertices : List Vec3) (texCoords : List Vec2) (g : Group) : Option Shape :=
  match resolveMat readFile g.material with
  | none => none
  | some (col, tex) =>
    match panicMap (faceVerts vertices texCoords) g.polys with
    | none => none
    | some polys =>
      match Material.new alloc (tex.orElse fun _ => some placeholderTex) col none true with
      | none => none
      | some mat => some (Shape.new mat .triangles polys.flatten)

/-- parse_obj (src/src/obj.rs): load the OBJ file and its material
libraries (unwrap panics), remap positions and texture coordinates, and
emit one Model per object, one Shape per group, position and rotation
zeroed. -/
def parse_obj (env : Env) : Option (List Model) :=
  match env.load with
  | none => none
  | some obj =>
    if env.mtlsOk then
      let vertices := obj.position.map vec3OfArr
      let texCoords := obj.texture.map texRemap
      panicMap
        (fun o =>
          match panicMap (processGroup env.alloc env.readFile vertices texCoords) o.groups with
          | none => none
          | some shapes => some (Model.new (Vec3.new 0 0 0) (Vec3.new 0 0 0) shapes))
        obj.objects
    else none

/-!  Rotation update of the render loop (src/src/main.rs).  Every live
rotation update has the shape r += delta; r %= TAU (or r -= delta;
r %= TAU, which is the same with a negated delta).  Rust % on f32 is the
remainder after division truncated toward zero, so the result keeps the
sign of the dividend. -/

/-- The exact rational value of the f32 constant std::f32::consts::TAU
(bit pattern 0x40C90FDB). -/
def tauF32 : ℚ := 13176795 / 2097152

/-- Truncation toward zero, as in the Rust % operator on floats. -/
def ratTrunc (q : ℚ) : ℤ := if 0 ≤ q then ⌊q⌋ else ⌈q⌉

/-- Rust remainder x % y: x minus y times the quotient truncated toward
zero.  Exact for f32 operands (fmod is exact); f32 values are modelled as
exact rationals. -/
def rustRem (x y : ℚ) : ℚ := x - y * (ratTrunc (x / y) : ℚ)

/-- One per-frame rotation update r += d; r %= TAU (src/src/main.rs,
the cam_rot and mdl.rot update statements). -/
def wrapAdd (r d : ℚ) : ℚ := rustRem (r + d) tauF32

/-- A sequence of per-frame rotation updates applied to a stored rotation
component. -/
def rotIter (r0 : ℚ) (ds : List ℚ) : ℚ := ds.foldl wrapAdd r0

/-!  Claim-level predicates and concrete inputs used by the theorems. -/

/-- All deltas of an update sequence are non-negative. -/
def allNonneg : List ℚ → Bool
  | [] => true
  | d :: ds => decide (0 ≤ d) && allNonneg ds

/-- Whether a GPU command trace contains a texture bind. -/
def hasTexBind (cs : List GpuCmd) : Bool :=
  cs.any fun c =>
    match c with
    | .texBind _ _ => true
    | _ => false

/-- The Material properties claimed for every importer-built Material:
vertex colours enabled, no ambient colour, and any diffuse colour fully
opaque. -/
def materialOk (m : Material) : Bool :=
  m.vertexColours && m.ambient.isNone &&
    (match m.colour with
     | none => true
     | some c => c.a == 255)

/-- materialOk for every Shape of every Model of an importer result. -/
def modelsMaterialOk (ms : List Model) : Bool :=
  ms.all fun mdl => mdl.shapes.all fun s => materialOk s.mat

/-- The fatal conditions of one group during import: an indirect material
reference, an unreadable texture-map file, a face whose first three vertex
references index out of range, or a read texture-map file shorter than the
RGBA8 size of the assumed 512 by 512 resolution while GPU allocation
succeeds (the upload assertion). -/
def groupFatal (alloc : AllocFn) (readFile : String → Option (List ℕ))
    (obj : ObjData) (g : Group) : Prop :=
  (∃ n, g.material = some (.ref n)) ∨
    (∃ m p, g.material = some (.mtl m) ∧ m.map_kd = some p ∧ readFile p = none) ∨
    (∃ p ∈ g.polys, ∃ i ∈ p.idx.take 3,
      obj.position.length ≤ i.pos ∨ ∃ t, i.tex = some t ∧ obj.texture.length ≤ t) ∨
    (∃ m pth bytes, g.material = some (.mtl m) ∧ m.map_kd = some pth ∧
      readFile pth = some bytes ∧ alloc 512 512 .rgba8 = true ∧
      bytes.length < 512 * 512 * 4)

/-- The fatal conditions of parse_obj: OBJ load or parse failure, MTL load
failure, or a fatal group. -/
def parseFatal (env : Env) : Prop :=
  env.load = none ∨ env.mtlsOk = false ∨
    ∃ obj, env.load = some obj ∧ ∃ o ∈ obj.objects, ∃ g ∈ o.groups,
      groupFatal env.alloc env.readFile obj g

/-- Whether any group of the document carries an indirect material
reference. -/
def anyRefMaterial (obj : ObjData) : Bool :=
  obj.objects.any fun o => o.groups.any fun g =>
    match g.material with
    | some (.ref _) => true
    | _ => false

/-- Whether any group material of the document references a texture-map
file. -/
def anyMapKd (obj : ObjData) : Bool :=
  obj.objects.any fun o => o.groups.any fun g =>
    match g.material with
    | some (.mtl m) => m.map_kd.isSome
    | _ => false

/-- Minimal OBJ document: one object, one group, one triangular face, no
material. -/
def minimalObj : ObjData :=
  { position := [(0, 0, 0), (1, 0, 0), (0, 1, 0)]
    texture := []
    objects := [⟨[⟨none, [⟨[⟨0, none⟩, ⟨1, none⟩, ⟨2, none⟩]⟩]⟩]⟩] }

/-- Environment for the minimal document with a failing GPU allocator and
an empty filesystem. -/
def env0 : Env := ⟨some minimalObj, true, fun _ => none, fun _ _ _ => false⟩

/-- OBJ document with one triangular face whose three vertex references all
use the single texture coordinate (1, 1). -/
def objC5 : ObjData :=
  { position := [(0, 0, 0), (1, 0, 0), (0, 1, 0)]
    texture := [(1, 1)]
    objects := [⟨[⟨none, [⟨[⟨0, some 0⟩, ⟨1, some 0⟩, ⟨2, some 0⟩]⟩]⟩]⟩] }

/-- Environment for objC5. -/
def envC5 : Env := ⟨some objC5, true, fun _ => none, fun _ _ _ => false⟩

/-- Well-formed document whose only face references position index 0 while
the position array is empty. -/
def objC8 : ObjData := ⟨[], [], [⟨[⟨none, [⟨[⟨0, none⟩]⟩]⟩]⟩]⟩

/-- Environment for objC8 in which the OBJ file loads and parses, the MTL
load succeeds, every filesystem read succeeds and the GPU allocator always
succeeds. -/
def envC8 : Env := ⟨some objC8, true, fun _ => some [], fun _ _ _ => true⟩

/-- A 1 by 1 RGBA8 texture with exactly 4 bytes of pixel data. -/
def tex1 : Texture := Texture.new 1 1 [0, 0, 0, 0]

/-- GPU allocator that always succeeds. -/
def allocTrue : AllocFn := fun _ _ _ => true

/-- GPU allocator that always fails. -/
def allocFalse : AllocFn := fun _ _ _ => false

/-- Shape with a texture and vertex colours enabled. -/
def shapeA : Shape :=
  Shape.new ⟨some tex1, none, none, true, some ⟨1, 1, .rgba8⟩⟩ .triangles []

/-- Shape with a texture and vertex colours disabled. -/
def shapeB : Shape :=
  Shape.new ⟨some tex1, none, none, false, some ⟨1, 1, .rgba8⟩⟩ .triangles []

/-- Shape whose material was constructed with texture None. -/
def shapeC : Shape :=
  Shape.new ⟨none, some (Colour.new 255 0 255 255), none, false, none⟩ .triangles []

/-- Vertex array for the face-truncation witness. -/
def c4Verts : List Vec3 := [⟨0, 0, 0⟩, ⟨1, 0, 0⟩, ⟨0, 1, 0⟩, ⟨1, 1, 0⟩]

/-- Texture-coordinate array for the face-truncation witness. -/
def c4Tex : List Vec2 := [⟨15 / 16, 117 / 512⟩]

/-- A quad face: four vertex references, the second without a
texture-coordinate index. -/
def c4Poly : Poly := ⟨[⟨0, some 0⟩, ⟨1, none⟩, ⟨2, some 0⟩, ⟨3, some 0⟩]⟩

/-!  Helper lemmas. -/

lemma panicMap_eq_none_iff {α β : Type} {f : α → Option β} {l : List α} :
    panicMap f l = none ↔ ∃ x ∈ l, f x = none := by
  induction l with
  | nil => simp [panicMap]
  | cons x xs ih =>
    simp only [panicMap]
    cases hfx : f x with
    | none =>
      constructor
      · intro _
        exact ⟨x, List.mem_cons_self x xs, hfx⟩
      · intro _
        rfl
    | some y =>
      cases hxs : panicMap f xs with
      | none =>
        obtain ⟨z, hz, hfz⟩ := ih.mp hxs
        constructor
        · intro _
          exact ⟨z, List.mem_cons_of_mem x hz, hfz⟩
        · intro _
          rfl
      | some ys =>
        constructor
        · intro h
          exact absurd h (by simp)
        · rintro ⟨z, hz, hfz⟩
          rcases List.mem_cons.mp hz with rfl | hz2
          · exact absurd hfx (by simp [hfz])
          · exact absurd hxs (by simp [ih.mpr ⟨z, hz2, hfz⟩])

lemma panicMap_eq_map {α β : Type} {f : α → Option β} {g : α → β} {l : List α}
    (h : ∀ x ∈ l, f x = some (g x)) : panicMap f l = some (l.map g) := by
  induction l with
  | nil => rfl
  | cons x xs ih =>
    have hx := h x (List.mem_cons_self x xs)
    have hxs := ih fun y hy => h y (List.mem_cons_of_mem x hy)
    simp [panicMap, hx, hxs]

lemma panicMap_mem {α β : Type} {f : α → Option β} {l : List α} {ys : List β} {y : β}
    (h : panicMap f l = some ys) (hy : y ∈ ys) : ∃ x ∈ l, f x = some y := by
  induction l generalizing ys with
  | nil =>
    simp only [panicMap, Option.some.injEq] at h
    subst h
    cases hy
  | cons x xs ih =>
    simp only [panicMap] at h
    cases hfx : f x with
    | none => rw [hfx] at h; exact absurd h (by simp)
    | some z =>
      rw [hfx] at h
      cases hxs : panicMap f xs with
      | none => rw [hxs] at h; exact absurd h (by simp)
      | some zs =>
        rw [hxs] at h
        simp only [Option.some.injEq] at h
        subst h
        rcases List.mem_cons.mp hy with rfl | hy2
        · exact ⟨x, List.mem_cons_self x xs, hfx⟩
        · obtain ⟨w, hw, hfw⟩ := ih hxs hy2
          exact ⟨w, List.mem_cons_of_mem x hw, hfw⟩

lemma tauF32_pos : 0 < tauF32 := by norm_num [tauF32]

lemma rustRem_bounds (x : ℚ) {y : ℚ} (hy : 0 < y) :
    -y < rustRem x y ∧ rustRem x y < y ∧ (0 ≤ x → 0 ≤ rustRem x y) := by
  have hyne : y ≠ 0 := ne_of_gt hy
  have hxy : x / y * y = x := div_mul_cancel₀ x hyne
  unfold rustRem ratTrunc
  by_cases h : 0 ≤ x / y
  · rw [if_pos h]
    have h1 : ((⌊x / y⌋ : ℤ) : ℚ) ≤ x / y := Int.floor_le _
    have h2 : x / y < ⌊x / y⌋ + 1 := Int.lt_floor_add_one _
    have hfl : y * ((⌊x / y⌋ : ℤ) : ℚ) ≤ x := by nlinarith
    have hfu : x < y * ((⌊x / y⌋ : ℤ) : ℚ) + y := by nlinarith
    exact ⟨by linarith, by linarith, fun _ => by linarith⟩
  · rw [if_neg h]
    have h1 : x / y ≤ ((⌈x / y⌉ : ℤ) : ℚ) := Int.le_ceil _
    have h2 : ((⌈x / y⌉ : ℤ) : ℚ) < x / y + 1 := Int.ceil_lt_add_one _
    have hcu : x ≤ y * ((⌈x / y⌉ : ℤ) : ℚ) := by nlinarith
    have hcl : y * ((⌈x / y⌉ : ℤ) : ℚ) < x + y := by nlinarith
    refine ⟨by linarith, by linarith, fun hx => ?_⟩
    exact absurd (div_nonneg hx hy.le) h

lemma orElse_none_fn {α : Type} (f : Unit → Option α) : Option.orElse none f = f () := rfl

lemma orElse_some_fn {α : Type} (a : α) (f : Unit → Option α) :
    Option.orElse (some a) f = some a := rfl

lemma make_texture_some (al : AllocFn) (t : Texture)
    (hup : t.width * t.height * 32 / 8 ≤ t.data.length) :
    Material.make_texture al (some t) =
      some (if al t.width t.height .rgba8 then some ⟨t.width, t.height, .rgba8⟩ else none) := by
  unfold Material.make_texture C3DTex.new C3DTex.upload
  cases hal : al t.width t.height TextureColour.rgba8
  · simp [hal]
  · simp [hal, TextureColour.size, hup]

lemma placeholder_len : placeholderTex.data.length = 64 * 64 * 4 := by
  show (List.replicate (64 * 64 * 4) 0).length = 64 * 64 * 4
  exact List.length_replicate _ _

lemma placeholder_width : placeholderTex.width = 64 := rfl

lemma placeholder_height : placeholderTex.height = 64 := rfl

lemma make_texture_placeholder (al : AllocFn) :
    Material.make_texture al (some placeholderTex) =
      some (if al 64 64 .rgba8 then some ⟨64, 64, .rgba8⟩ else none) := by
  have h := make_texture_some al placeholderTex
    (by rw [placeholder_len, placeholder_width, placeholder_height])
  rw [placeholder_width, placeholder_height] at h
  exact h

lemma material_new_placeholder (al : AllocFn) (col : Option Colour) :
    Material.new al (some placeholderTex) col none true =
      some ⟨some placeholderTex, col, none, true,
        if al 64 64 .rgba8 then some ⟨64, 64, .rgba8⟩ else none⟩ := by
  simp [Material.new, make_texture_placeholder]

/-!  Claim theorems. -/

/-- Claim C2, counterexample: Texture::new accepts a 1 by 1 texture with 5
bytes of pixel data, violating pixels.length == W*H*4, and the derivation
path still reaches the GPU upload call (the upload assertion only checks
length at least W*H*4). -/
theorem c2_length_cex :
    (Texture.new 1 1 [0, 0, 0, 0, 0]).data.length ≠
        (Texture.new 1 1 [0, 0, 0, 0, 0]).width * (Texture.new 1 1 [0, 0, 0, 0, 0]).height * 4 ∧
      Material.make_texture allocTrue (some (Texture.new 1 1 [0, 0, 0, 0, 0])) =
        some (some ⟨1, 1, .rgba8⟩) := by
  decide

/-- Claim C2, amended: Texture::new performs no validation, and the only
pre-upload check is the upload assertion pixels.length at least W*H*4 for
RGBA8; shorter buffers panic before the GPU upload call, all others reach
it. -/
theorem c2_length_amended (w h : ℕ) (d : List ℕ) :
    Texture.new w h d = ⟨w, h, d⟩ ∧
      ((C3DTex.mk w h .rgba8).upload d = some () ↔ w * h * 4 ≤ d.length) := by
  refine ⟨rfl, ?_⟩
  have h32 : w * h * 32 / 8 = w * h * 4 := by omega
  simp only [C3DTex.upload, TextureColour.size, h32]
  split_ifs with hle <;> simp [hle]

/-- Claim C5: parse_obj remaps every parsed texture coordinate (u, v) to
(u*(480/512), 1 - v*(395/512)); the input texcoord (1, 1) maps to
(480/512, 1 - 395/512), and a face referencing it receives exactly that
remapped coordinate in the emitted vertices. -/
theorem c5_tex_remap :
    (∀ u v : ℚ, texRemap (u, v) = ⟨u * (480 / 512), 1 - v * (395 / 512)⟩) ∧
      texRemap (1, 1) = ⟨480 / 512, 1 - 395 / 512⟩ ∧
      parse_obj envC5 =
        some [Model.new (Vec3.new 0 0 0) (Vec3.new 0 0 0)
          [Shape.new ⟨some placeholderTex, none, none, true, none⟩ .triangles
            [⟨⟨0, 0, 0⟩, ⟨480 / 512, 1 - 395 / 512⟩⟩, ⟨⟨1, 0, 0⟩, ⟨480 / 512, 1 - 395 / 512⟩⟩,
              ⟨⟨0, 1, 0⟩, ⟨480 / 512, 1 - 395 / 512⟩⟩]]] := by
  refine ⟨fun u v => rfl, ?_, ?_⟩
  · simp only [texRemap, Vec2.mk.injEq]
    norm_num
  · have e : parse_obj envC5 =
        some [Model.new (Vec3.new 0 0 0) (Vec3.new 0 0 0)
          [Shape.new ⟨some placeholderTex, none, none, true, none⟩ .triangles
            [⟨⟨0, 0, 0⟩, ⟨1 * (480 / 512), 1 - 1 * (395 / 512)⟩⟩,
              ⟨⟨1, 0, 0⟩, ⟨1 * (480 / 512), 1 - 1 * (395 / 512)⟩⟩,
              ⟨⟨0, 1, 0⟩, ⟨1 * (480 / 512), 1 - 1 * (395 / 512)⟩⟩]]] := rfl
    rw [e]
    norm_num [Model.new, Shape.new, Vec3.new, Model.mk.injEq, Shape.mk.injEq,
      Vert.mk.injEq, Vec2.mk.injEq, Vec3.mk.injEq, List.cons.injEq, Option.some.injEq]

/-- Claim C7: Model::draw computes the world transform by applying, in
order, a scale by 1, a rotation about X by -rotation.y, a rotation about Y
by rotation.x, a rotation about Z by rotation.z and a translation by the
position, binds that matrix to the model-matrix uniform slot, and then
draws every owned Shape in list order. -/
theorem c7_model_draw (alloc : AllocFn) (u : Uniforms) (m : Model) :
    Model.draw alloc u m =
      (panicMap (Shape.draw alloc) m.shapes).map fun cs =>
        GpuCmd.bindVertexUniform u.modelMatrix
            [MatOp.scale 1 1 1, MatOp.rotateX (-m.rot.y), MatOp.rotateY m.rot.x,
              MatOp.rotateZ m.rot.z, MatOp.translate m.pos.x m.pos.y m.pos.z] ::
          cs.flatten := by
  unfold Model.draw
  cases h : panicMap (Shape.draw alloc) m.shapes <;>
    simp [h, Matrix4.identity, Matrix4.scale, Matrix4.rotate_x, Matrix4.rotate_y,
      Matrix4.rotate_z, Matrix4.translate]

/-- Claim C6, counterexample: one per-frame update that subtracts 0.25
radians (the source update rot.z -= 0.25; rot.z %= TAU, likewise
cam_rot.y -= pitch) leaves the stored component at -0.25, outside
[0, 2*pi), because the Rust remainder keeps the sign of the dividend. -/
theorem c6_rotation_cex :
    rotIter 0 [-(1 / 4)] = -(1 / 4) ∧ ¬ 0 ≤ rotIter 0 [-(1 / 4)] := by
  have hneg : ((0 : ℚ) + -(1 / 4)) / tauF32 < 0 :=
    div_neg_of_neg_of_pos (by norm_num) tauF32_pos
  have hval : rotIter 0 [-(1 / 4)] = -(1 / 4) := by
    show wrapAdd 0 (-(1 / 4)) = -(1 / 4)
    unfold wrapAdd rustRem ratTrunc
    rw [if_neg (not_le.mpr hneg)]
    have hc : ⌈((0 + -(1 / 4)) / tauF32 : ℚ)⌉ = 0 := by
      rw [Int.ceil_eq_zero_iff, Set.mem_Ioc]
      refine ⟨?_, le_of_lt hneg⟩
      rw [lt_div_iff₀ tauF32_pos]
      norm_num [tauF32]
    rw [hc]
    norm_num
  exact ⟨hval, by rw [hval]; norm_num⟩

/-- Claim C6, amended: every wrapped rotation component stays strictly
between -2*pi and 2*pi (never unbounded), and as long as the start is
non-negative and every update adds a non-negative delta (for example
repeatedly adding 0.3), the stored value stays within [0, 2*pi); updates
that subtract can leave a negative value, since the Rust remainder keeps
the sign of the dividend. -/
theorem c6_rotation_amended (r0 : ℚ) (ds : List ℚ) (h1 : -tauF32 < r0) (h2 : r0 < tauF32) :
    (-tauF32 < rotIter r0 ds ∧ rotIter r0 ds < tauF32) ∧
      (0 ≤ r0 → allNonneg ds = true → 0 ≤ rotIter r0 ds) := by
  induction ds generalizing r0 with
  | nil => exact ⟨⟨h1, h2⟩, fun hx _ => hx⟩
  | cons d ds ih =>
    have hb := rustRem_bounds (r0 + d) tauF32_pos
    have e : rotIter r0 (d :: ds) = rotIter (wrapAdd r0 d) ds := rfl
    rw [e]
    have ihh := ih (wrapAdd r0 d) hb.1 hb.2.1
    refine ⟨ihh.1, fun hx hall => ?_⟩
    simp only [allNonneg, Bool.and_eq_true, decide_eq_true_eq] at hall
    exact ihh.2 (hb.2.2 (by linarith [hall.1])) hall.2

/-- Claim C6, witness: two updates of +0.3 radians from 0 stay within
[0, 2*pi). -/
theorem c6_rotation_witness :
    (-tauF32 < rotIter 0 [3 / 10, 3 / 10] ∧ rotIter 0 [3 / 10, 3 / 10] < tauF32) ∧
      (0 ≤ (0 : ℚ) → allNonneg [3 / 10, 3 / 10] = true → 0 ≤ rotIter 0 [3 / 10, 3 / 10]) :=
  c6_rotation_amended 0 [3 / 10, 3 / 10] (by norm_num [tauF32]) tauF32_pos

/-- Claim C3: on the minimal OBJ document with one object, one group, one
triangular face and no material, parse_obj produces exactly one Model with
exactly one Shape whose Material takes no colour and no texture from the
input and instead carries the substituted 64 by 64 placeholder texture
whose pixel bytes are all zero, whatever the filesystem and the GPU
allocator do. -/
theorem c3_minimal_obj (rf : String → Option (List ℕ)) (al : AllocFn) :
    (∃ ct, parse_obj ⟨some minimalObj, true, rf, al⟩ =
        some [Model.new (Vec3.new 0 0 0) (Vec3.new 0 0 0)
          [Shape.new ⟨some placeholderTex, none, none, true, ct⟩ .triangles
            [⟨⟨0, 0, 0⟩, ⟨0, 0⟩⟩, ⟨⟨1, 0, 0⟩, ⟨0, 0⟩⟩, ⟨⟨0, 1, 0⟩, ⟨0, 0⟩⟩]]]) ∧
      placeholderTex.width = 64 ∧ placeholderTex.height = 64 ∧
      ∀ b ∈ placeholderTex.data, b = 0 := by
  refine ⟨⟨if al 64 64 .rgba8 then some ⟨64, 64, .rgba8⟩ else none, ?_⟩, rfl, rfl, ?_⟩
  · simp [parse_obj, minimalObj, processGroup, resolveMat, faceVerts, panicMap, vec3OfArr,
      Option.orElse, material_new_placeholder, Shape.new, Model.new, Vec3.new, Vec2.new]
  · intro b hb
    exact List.eq_of_mem_replicate (show b ∈ List.replicate (64 * 64 * 4) 0 from hb)

/-- Claim C1: Shape::draw configures the texture-combiner stage before the
draw call, selecting exactly one of three mutually exclusive
configurations from the Material state: derived texture present and vertex
colours enabled selects modulate of texture with primary colour; derived
texture present and vertex colours disabled selects replace with the
texture only; no texture selects replace with primary colour and performs
no texture bind at all. -/
theorem c1_combiner (alloc : AllocFn) (s : Shape) :
    (∀ t, s.mat.texture = some t → s.mat.vertexColours = true →
        alloc t.width t.height .rgba8 = true →
        (C3DTex.mk t.width t.height .rgba8).upload t.data = some () →
        Shape.draw alloc s =
          some [GpuCmd.texBind 0 ⟨t.width, t.height, .rgba8⟩,
            GpuCmd.texenvSrc 0 .texture0 (some .primaryColor) none,
            GpuCmd.texenvFunc 0 .modulate,
            GpuCmd.setAttrInfo, GpuCmd.drawArrays s.primType s.verts.length]) ∧
      (∀ t, s.mat.texture = some t → s.mat.vertexColours = false →
        alloc t.width t.height .rgba8 = true →
        (C3DTex.mk t.width t.height .rgba8).upload t.data = some () →
        Shape.draw alloc s =
          some [GpuCmd.texBind 0 ⟨t.width, t.height, .rgba8⟩,
            GpuCmd.texenvSrc 0 .texture0 none none,
            GpuCmd.texenvFunc 0 .replace,
            GpuCmd.setAttrInfo, GpuCmd.drawArrays s.primType s.verts.length]) ∧
      (s.mat.texture = none →
        Shape.draw alloc s =
          some [GpuCmd.texenvReset 0, GpuCmd.texenvSrc 0 .primaryColor none none,
            GpuCmd.texenvFunc 0 .replace,
            GpuCmd.setAttrInfo, GpuCmd.drawArrays s.primType s.verts.length] ∧
        (Shape.draw alloc s).map hasTexBind = some false) := by
  refine ⟨?_, ?_, ?_⟩
  · intro t ht hvc hal hup
    simp [Shape.draw, Material.make_texture, C3DTex.new, ht, hvc, hal, hup]
  · intro t ht hvc hal hup
    simp [Shape.draw, Material.make_texture, C3DTex.new, ht, hvc, hal, hup]
  · intro ht
    constructor
    · simp [Shape.draw, Material.make_texture, ht]
    · simp [Shape.draw, Material.make_texture, ht, hasTexBind]

/-- Claim C1, witness: the three combiner configurations on concrete
shapes, including that the no-texture trace contains no texture bind. -/
theorem c1_combiner_witness :
    Shape.draw allocTrue shapeA =
        some [GpuCmd.texBind 0 ⟨1, 1, .rgba8⟩,
          GpuCmd.texenvSrc 0 .texture0 (some .primaryColor) none,
          GpuCmd.texenvFunc 0 .modulate, GpuCmd.setAttrInfo,
          GpuCmd.drawArrays .triangles 0] ∧
      Shape.draw allocTrue shapeB =
        some [GpuCmd.texBind 0 ⟨1, 1, .rgba8⟩,
          GpuCmd.texenvSrc 0 .texture0 none none,
          GpuCmd.texenvFunc 0 .replace, GpuCmd.setAttrInfo,
          GpuCmd.drawArrays .triangles 0] ∧
      Shape.draw allocTrue shapeC =
        some [GpuCmd.texenvReset 0, GpuCmd.texenvSrc 0 .primaryColor none none,
          GpuCmd.texenvFunc 0 .replace, GpuCmd.setAttrInfo,
          GpuCmd.drawArrays .triangles 0] ∧
      (Shape.draw allocTrue shapeC).map hasTexBind = some false :=
  ⟨(c1_combiner allocTrue shapeA).1 tex1 rfl rfl rfl (by decide),
    (c1_combiner allocTrue shapeB).2.1 tex1 rfl rfl rfl (by decide),
    ((c1_combiner allocTrue shapeC).2.2 rfl).1,
    ((c1_combiner allocTrue shapeC).2.2 rfl).2⟩

/-- Claim C9: Material::new eagerly derives a GPU texture resource from a
supplied Texture; if allocation fails, construction still succeeds with no
bound GPU texture and the Shape draw path treats the Material as the
no-texture state; with no supplied Texture, no derivation is attempted
(the result does not depend on the allocator at all). -/
theorem c9_material_alloc (alloc : AllocFn) (t : Texture) (col amb : Option Colour) (vc : Bool) :
    (alloc t.width t.height .rgba8 = false →
        Material.new alloc (some t) col amb vc = some ⟨some t, col, amb, vc, none⟩ ∧
        ∀ prim vs, Shape.draw alloc (Shape.new ⟨some t, col, amb, vc, none⟩ prim vs) =
          some [GpuCmd.texenvReset 0, GpuCmd.texenvSrc 0 .primaryColor none none,
            GpuCmd.texenvFunc 0 .replace, GpuCmd.setAttrInfo,
            GpuCmd.drawArrays prim vs.length]) ∧
      (alloc t.width t.height .rgba8 = true →
        (C3DTex.mk t.width t.height .rgba8).upload t.data = some () →
        Material.new alloc (some t) col amb vc =
          some ⟨some t, col, amb, vc, some ⟨t.width, t.height, .rgba8⟩⟩) ∧
      (∀ alloc2 : AllocFn,
        Material.new alloc none col amb vc = some ⟨none, col, amb, vc, none⟩ ∧
        Material.make_texture alloc none = Material.make_texture alloc2 none) := by
  refine ⟨fun hal => ⟨?_, fun prim vs => ?_⟩, fun hal hup => ?_, fun alloc2 => ⟨rfl, rfl⟩⟩
  · simp [Material.new, Material.make_texture, C3DTex.new, hal]
  · simp [Shape.draw, Material.make_texture, C3DTex.new, Shape.new, hal]
  · simp [Material.new, Material.make_texture, C3DTex.new, hal, hup]

/-- Claim C9, witness: allocation failure on a concrete texture yields a
Material with no bound GPU texture whose Shape takes the no-texture draw
path; allocation success binds the texture; no supplied texture consults
no allocator. -/
theorem c9_material_alloc_witness :
    Material.new allocFalse (some tex1) none none true =
        some ⟨some tex1, none, none, true, none⟩ ∧
      Shape.draw allocFalse (Shape.new ⟨some tex1, none, none, true, none⟩ .triangles []) =
        some [GpuCmd.texenvReset 0, GpuCmd.texenvSrc 0 .primaryColor none none,
          GpuCmd.texenvFunc 0 .replace, GpuCmd.setAttrInfo,
          GpuCmd.drawArrays .triangles 0] ∧
      Material.new allocTrue (some tex1) none none true =
        some ⟨some tex1, none, none, true, some ⟨1, 1, .rgba8⟩⟩ ∧
      Material.new allocFalse none none none true = some ⟨none, none, none, true, none⟩ ∧
      Material.make_texture allocFalse none = Material.make_texture allocTrue none :=
  ⟨((c9_material_alloc allocFalse tex1 none none true).1 rfl).1,
    ((c9_material_alloc allocFalse tex1 none none true).1 rfl).2 .triangles [],
    (c9_material_alloc allocTrue tex1 none none true).2.1 rfl (by decide),
    ((c9_material_alloc allocFalse tex1 none none true).2.2 allocTrue).1,
    ((c9_material_alloc allocFalse tex1 none none true).2.2 allocTrue).2⟩

/-- Claim C4: for every polygon face, parse_obj emits exactly the first
three referenced vertex/texcoord pairs in file order (so min 3 (number of
pairs) vertices: a quad yields 3, not 4 and not a fan), and every emitted
vertex whose texture-coordinate index is missing receives texture
coordinate (0, 0). -/
theorem c4_face_truncation (vertices : List Vec3) (texCoords : List Vec2) (p : Poly)
    (h : ∀ i ∈ p.idx.take 3, i.pos < vertices.length ∧ ∀ t ∈ i.tex, t < texCoords.length) :
    faceVerts vertices texCoords p =
        some ((p.idx.take 3).map fun i =>
          ⟨vertices.getD i.pos (Vec3.new 0 0 0),
            match i.tex with
            | none => Vec2.new 0 0
            | some t => texCoords.getD t (Vec2.new 0 0)⟩) ∧
      (faceVerts vertices texCoords p).map List.length = some (min 3 p.idx.length) := by
  have h1 : panicMap (fun i => vertices[i.pos]?) (p.idx.take 3) =
      some ((p.idx.take 3).map fun i => vertices.getD i.pos (Vec3.new 0 0 0)) := by
    apply panicMap_eq_map
    intro i hi
    have hp := (h i hi).1
    rw [List.getElem?_eq_getElem hp, List.getD_eq_getElem vertices _ hp]
  have h2 : panicMap (fun i =>
        match i.tex with
        | none => some (Vec2.new 0 0)
        | some t => texCoords[t]?) (p.idx.take 3) =
      some ((p.idx.take 3).map fun i =>
        match i.tex with
        | none => Vec2.new 0 0
        | some t => texCoords.getD t (Vec2.new 0 0)) := by
    apply panicMap_eq_map
    intro i hi
    cases hx : i.tex with
    | none => simp
    | some t =>
      have ht := (h i hi).2 t (by simp [hx])
      simp only [List.getElem?_eq_getElem ht, List.getD_eq_getElem texCoords _ ht]
  have hmain : faceVerts vertices texCoords p =
      some ((p.idx.take 3).map fun i =>
        ⟨vertices.getD i.pos (Vec3.new 0 0 0),
          match i.tex with
          | none => Vec2.new 0 0
          | some t => texCoords.getD t (Vec2.new 0 0)⟩) := by
    unfold faceVerts
    simp only [h1, h2]
    rw [List.zip_map', List.map_map]
    rfl
  refine ⟨hmain, ?_⟩
  rw [hmain]
  simp [List.length_take]

/-- Claim C4, witness: a quad face with one missing texture-coordinate
index yields exactly the first three vertices, the missing index mapped to
(0, 0). -/
theorem c4_face_truncation_witness :
    faceVerts c4Verts c4Tex c4Poly =
        some [⟨⟨0, 0, 0⟩, ⟨15 / 16, 117 / 512⟩⟩, ⟨⟨1, 0, 0⟩, ⟨0, 0⟩⟩,
          ⟨⟨0, 1, 0⟩, ⟨15 / 16, 117 / 512⟩⟩] ∧
      (faceVerts c4Verts c4Tex c4Poly).map List.length = some 3 := by
  have h := c4_face_truncation c4Verts c4Tex c4Poly (by decide)
  exact ⟨h.1.trans rfl, h.2.trans rfl⟩

lemma resolveMat_some_colour {rf : String → Option (List ℕ)} {om : Option ObjMaterial}
    {col : Option Colour} {tex : Option Texture}
    (h : resolveMat rf om = some (col, tex)) :
    col = none ∨ ∃ r g b, col = some (Colour.new r g b 255) := by
  rcases om with _ | (n | ⟨kd, mkd⟩)
  · have e : resolveMat rf none = some (none, none) := rfl
    rw [e] at h
    injection h with h3
    injection h3 with h4 h5
    subst h4
    exact Or.inl rfl
  · have e : resolveMat rf (some (.ref n)) = none := rfl
    rw [e] at h
    exact Option.noConfusion h
  · rcases mkd with _ | pth
    · have e : resolveMat rf (some (.mtl ⟨kd, none⟩)) =
          some (kd.map fun rgb => Colour.new (u8OfF32 (rgb.1 * 255)) (u8OfF32 (rgb.2.1 * 255))
            (u8OfF32 (rgb.2.2 * 255)) 0xFF, none) := rfl
      rw [e] at h
      injection h with h3
      injection h3 with h4 h5
      subst h4
      cases kd with
      | none => exact Or.inl rfl
      | some rgb => exact Or.inr ⟨_, _, _, rfl⟩
    · rcases hrf : rf pth with _ | bytes
      · have e : resolveMat rf (some (.mtl ⟨kd, some pth⟩)) = none := by
          simp [resolveMat, hrf]
        rw [e] at h
        exact Option.noConfusion h
      · have e : resolveMat rf (some (.mtl ⟨kd, some pth⟩)) =
            some (kd.map fun rgb => Colour.new (u8OfF32 (rgb.1 * 255)) (u8OfF32 (rgb.2.1 * 255))
              (u8OfF32 (rgb.2.2 * 255)) 0xFF, some (Texture.new 512 512 bytes)) := by
          simp [resolveMat, hrf]
        rw [e] at h
        injection h with h3
        injection h3 with h4 h5
        subst h4
        cases kd with
        | none => exact Or.inl rfl
        | some rgb => exact Or.inr ⟨_, _, _, rfl⟩

/-- Claim C10: every Material built by parse_obj, for every group of every
object, has the use-vertex-colours flag true, no ambient colour, and any
diffuse colour taken from the MTL carries alpha 0xFF. -/
theorem c10_parse_materials (env : Env) (ms : List Model) (h : parse_obj env = some ms) :
    modelsMaterialOk ms = true := by
  rcases env with ⟨load, mtlsOk, rf, alloc⟩
  rcases load with _ | obj
  · exact absurd h (by simp [parse_obj])
  · rcases mtlsOk
    case false => exact absurd h (by simp [parse_obj])
    case true =>
      simp only [parse_obj, if_true] at h
      simp only [modelsMaterialOk, List.all_eq_true]
      intro mdl hmdl
      obtain ⟨o, ho, hF⟩ := panicMap_mem h hmdl
      cases hg : panicMap
          (processGroup alloc rf (obj.position.map vec3OfArr) (obj.texture.map texRemap))
          o.groups with
      | none => rw [hg] at hF; exact absurd hF (by simp)
      | some shapes =>
        rw [hg] at hF
        obtain rfl : mdl = Model.new (Vec3.new 0 0 0) (Vec3.new 0 0 0) shapes :=
          (Option.some.inj hF).symm
        simp only [Model.new, List.all_eq_true]
        intro s hs
        obtain ⟨g, hgg, hpg⟩ := panicMap_mem hg hs
        unfold processGroup at hpg
        cases hrm : resolveMat rf g.material with
        | none => rw [hrm] at hpg; exact absurd hpg (by simp)
        | some colTex =>
          obtain ⟨col, tex⟩ := colTex
          simp only [hrm] at hpg
          cases hpf : panicMap
              (faceVerts (obj.position.map vec3OfArr) (obj.texture.map texRemap))
              g.polys with
          | none =>
            simp only [hpf] at hpg
            exact Option.noConfusion hpg
          | some polys =>
            simp only [hpf] at hpg
            cases hmn : Material.new alloc (tex.orElse fun _ => some placeholderTex)
                col none true with
            | none => rw [hmn] at hpg; exact absurd hpg (by simp)
            | some mat =>
              rw [hmn] at hpg
              obtain rfl : s = Shape.new mat .triangles polys.flatten :=
                (Option.some.inj hpg).symm
              unfold Material.new at hmn
              cases hmt : Material.make_texture alloc
                  (tex.orElse fun _ => some placeholderTex) with
              | none => rw [hmt] at hmn; exact absurd hmn (by simp)
              | some ct =>
                rw [hmt] at hmn
                obtain rfl : mat =
                    ⟨tex.orElse fun _ => some placeholderTex, col, none, true, ct⟩ :=
                  (Option.some.inj hmn).symm
                rcases resolveMat_some_colour hrm with rfl | ⟨r1, g1, b1, rfl⟩ <;>
                  simp [materialOk, Shape.new, Colour.new]

/-- Claim C10, witness: the materials of the minimal-document parse all
satisfy the claimed flags. -/
theorem c10_parse_materials_witness :
    modelsMaterialOk [Model.new (Vec3.new 0 0 0) (Vec3.new 0 0 0)
      [Shape.new ⟨some placeholderTex, none, none, true, none⟩ .triangles
        [⟨⟨0, 0, 0⟩, ⟨0, 0⟩⟩, ⟨⟨1, 0, 0⟩, ⟨0, 0⟩⟩, ⟨⟨0, 1, 0⟩, ⟨0, 0⟩⟩]]] = true :=
  c10_parse_materials env0 _ rfl

lemma faceVerts_eq_none_iff (vertices : List Vec3) (texCoords : List Vec2) (p : Poly) :
    faceVerts vertices texCoords p = none ↔
      ∃ i ∈ p.idx.take 3,
        vertices.length ≤ i.pos ∨ ∃ t, i.tex = some t ∧ texCoords.length ≤ t := by
  unfold faceVerts
  cases h1 : panicMap (fun i => vertices[i.pos]?) (p.idx.take 3) with
  | none =>
    simp only [h1]
    constructor
    · intro _
      obtain ⟨i, hi, hfi⟩ := panicMap_eq_none_iff.mp h1
      exact ⟨i, hi, Or.inl (List.getElem?_eq_none_iff.mp hfi)⟩
    · intro _
      trivial
  | some vs =>
    cases h2 : panicMap (fun i =>
        match i.tex with
        | none => some (Vec2.new 0 0)
        | some t => texCoords[t]?) (p.idx.take 3) with
    | none =>
      simp only [h1, h2]
      constructor
      · intro _
        obtain ⟨i, hi, hfi⟩ := panicMap_eq_none_iff.mp h2
        cases hx : i.tex with
        | none => rw [hx] at hfi; exact Option.noConfusion hfi
        | some t =>
          rw [hx] at hfi
          exact ⟨i, hi, Or.inr ⟨t, hx, List.getElem?_eq_none_iff.mp hfi⟩⟩
      · intro _
        trivial
    | some ts =>
      simp only [h1, h2]
      constructor
      · intro hcontra
        exact Option.noConfusion hcontra
      · rintro ⟨i, hi, hbad | ⟨t, hxt, hbad⟩⟩
        · have hn : panicMap (fun i => vertices[i.pos]?) (p.idx.take 3) = none :=
            panicMap_eq_none_iff.mpr ⟨i, hi, List.getElem?_eq_none_iff.mpr hbad⟩
          exact Option.noConfusion (hn.symm.trans h1)
        · have hn : panicMap (fun i =>
              match i.tex with
              | none => some (Vec2.new 0 0)
              | some t => texCoords[t]?) (p.idx.take 3) = none := by
            refine panicMap_eq_none_iff.mpr ⟨i, hi, ?_⟩
            rw [hxt]
            exact List.getElem?_eq_none_iff.mpr hbad
          exact Option.noConfusion (hn.symm.trans h2)

lemma material_new_texture_none_iff (alloc : AllocFn) (col amb : Option Colour) (vc : Bool)
    (T : Texture) :
    Material.new alloc (some T) col amb vc = none ↔
      alloc T.width T.height .rgba8 = true ∧ T.data.length < T.width * T.height * 32 / 8 := by
  unfold Material.new Material.make_texture C3DTex.new C3DTex.upload
  cases hal : alloc T.width T.height TextureColour.rgba8
  · simp [hal]
  · by_cases hb : T.width * T.height * 32 / 8 ≤ T.data.length
    · simp only [hal, if_true, TextureColour.size]
      simp [hb]
    · simp only [hal, if_true, TextureColour.size]
      simp [hb]
      omega

lemma processGroup_mat_none {alloc : AllocFn} {rf : String → Option (List ℕ)}
    {V : List Vec3} {T : List Vec2} {g : Group}
    (h : resolveMat rf g.material = none) :
    processGroup alloc rf V T g = none := by
  unfold processGroup
  rw [h]

lemma processGroup_resolved (alloc : AllocFn) (rf : String → Option (List ℕ))
    (V : List Vec3) (T : List Vec2) (g : Group) (col : Option Colour) (tex : Option Texture)
    (h : resolveMat rf g.material = some (col, tex)) :
    processGroup alloc rf V T g =
      match panicMap (faceVerts V T) g.polys with
      | none => none
      | some polys =>
        match Material.new alloc (tex.orElse fun _ => some placeholderTex) col none true with
        | none => none
        | some mat => some (Shape.new mat .triangles polys.flatten) := by
  unfold processGroup
  rw [h]

lemma processGroup_fatal_iff (alloc : AllocFn) (rf : String → Option (List ℕ))
    (obj : ObjData) (g : Group) :
    processGroup alloc rf (obj.position.map vec3OfArr) (obj.texture.map texRemap) g = none ↔
      groupFatal alloc rf obj g := by
  have hfv : ∀ p : Poly,
      faceVerts (obj.position.map vec3OfArr) (obj.texture.map texRemap) p = none ↔
        ∃ i ∈ p.idx.take 3,
          obj.position.length ≤ i.pos ∨ ∃ t, i.tex = some t ∧ obj.texture.length ≤ t := by
    intro p
    rw [faceVerts_eq_none_iff]
    simp [List.length_map]
  have hpm : ∀ polys : List Poly,
      panicMap (faceVerts (obj.position.map vec3OfArr) (obj.texture.map texRemap)) polys =
          none ↔
        ∃ p ∈ polys, ∃ i ∈ p.idx.take 3,
          obj.position.length ≤ i.pos ∨ ∃ t, i.tex = some t ∧ obj.texture.length ≤ t := by
    intro polys
    rw [panicMap_eq_none_iff]
    constructor
    · rintro ⟨p, hp, hfp⟩
      exact ⟨p, hp, (hfv p).mp hfp⟩
    · rintro ⟨p, hp, hfp⟩
      exact ⟨p, hp, (hfv p).mpr hfp⟩
  rcases g with ⟨om, polys⟩
  rcases om with _ | (n | ⟨kd, mkd⟩)
  · -- no material: only face indexing can fail
    have e := processGroup_resolved alloc rf (obj.position.map vec3OfArr)
      (obj.texture.map texRemap) ⟨none, polys⟩ none none rfl
    rw [e]
    cases hp : panicMap (faceVerts (obj.position.map vec3OfArr) (obj.texture.map texRemap))
        polys with
    | none =>
      simp only [hp]
      constructor
      · intro _
        exact Or.inr (Or.inr (Or.inl ((hpm polys).mp hp)))
      · intro _
        trivial
    | some polys2 =>
      simp only [hp, orElse_none_fn, material_new_placeholder]
      constructor
      · intro hcontra
        exact Option.noConfusion hcontra
      · rintro (⟨n, hn⟩ | ⟨m1, p1, hm1, _, _⟩ | ⟨p, hpmem, hi⟩ | ⟨m1, p1, b1, hm1, _, _, _, _⟩)
        · exact Option.noConfusion hn
        · exact Option.noConfusion hm1
        · exact Option.noConfusion
            (((hpm polys).mpr ⟨p, hpmem, hi⟩).symm.trans hp)
        · exact Option.noConfusion hm1
  · -- indirect material reference: always fatal
    have e : processGroup alloc rf (obj.position.map vec3OfArr) (obj.texture.map texRemap)
        ⟨some (.ref n), polys⟩ = none := processGroup_mat_none rfl
    rw [e]
    constructor
    · intro _
      exact Or.inl ⟨n, rfl⟩
    · intro _
      rfl
  · rcases mkd with _ | pth
    · -- inline material without texture map: placeholder texture, never fatal
      have hres : resolveMat rf (some (.mtl ⟨kd, none⟩)) =
          some (kd.map fun rgb => Colour.new (u8OfF32 (rgb.1 * 255)) (u8OfF32 (rgb.2.1 * 255))
            (u8OfF32 (rgb.2.2 * 255)) 0xFF, none) := rfl
      have e := processGroup_resolved alloc rf (obj.position.map vec3OfArr)
        (obj.texture.map texRemap) ⟨some (.mtl ⟨kd, none⟩), polys⟩ _ _ hres
      rw [e]
      cases hp : panicMap (faceVerts (obj.position.map vec3OfArr) (obj.texture.map texRemap))
          polys with
      | none =>
        simp only [hp]
        constructor
        · intro _
          exact Or.inr (Or.inr (Or.inl ((hpm polys).mp hp)))
        · intro _
          trivial
      | some polys2 =>
        simp only [hp, orElse_none_fn, material_new_placeholder]
        constructor
        · intro hcontra
          exact Option.noConfusion hcontra
        · rintro (⟨n, hn⟩ | ⟨m1, p1, hm1, hmk1, _⟩ | ⟨p, hpmem, hi⟩ |
            ⟨m1, p1, b1, hm1, hmk1, _, _, _⟩)
          · exact ObjMaterial.noConfusion (Option.some.inj hn)
          · have h9 := Option.some.inj hm1
            injection h9 with h10
            subst h10
            exact Option.noConfusion hmk1
          · exact Option.noConfusion
              (((hpm polys).mpr ⟨p, hpmem, hi⟩).symm.trans hp)
          · have h9 := Option.some.inj hm1
            injection h9 with h10
            subst h10
            exact Option.noConfusion hmk1
    · rcases hrf : rf pth with _ | bytes
      · -- texture map not readable: always fatal
        have e : processGroup alloc rf (obj.position.map vec3OfArr)
            (obj.texture.map texRemap) ⟨some (.mtl ⟨kd, some pth⟩), polys⟩ = none := by
          apply processGroup_mat_none
          simp [resolveMat, hrf]
        rw [e]
        constructor
        · intro _
          exact Or.inr (Or.inl ⟨⟨kd, some pth⟩, pth, rfl, rfl, hrf⟩)
        · intro _
          rfl
      · -- texture map read: fatal on face indexing or on the upload assertion
        have hres : resolveMat rf (some (.mtl ⟨kd, some pth⟩)) =
            some (kd.map fun rgb => Colour.new (u8OfF32 (rgb.1 * 255))
                (u8OfF32 (rgb.2.1 * 255)) (u8OfF32 (rgb.2.2 * 255)) 0xFF,
              some (Texture.new 512 512 bytes)) := by
          simp [resolveMat, hrf]
        have e := processGroup_resolved alloc rf (obj.position.map vec3OfArr)
          (obj.texture.map texRemap) ⟨some (.mtl ⟨kd, some pth⟩), polys⟩ _ _ hres
        rw [e]
        cases hp : panicMap (faceVerts (obj.position.map vec3OfArr)
            (obj.texture.map texRemap)) polys with
        | none =>
          simp only [hp]
          constructor
          · intro _
            exact Or.inr (Or.inr (Or.inl ((hpm polys).mp hp)))
          · intro _
            trivial
        | some polys2 =>
          simp only [hp, orElse_some_fn]
          cases hmn : Material.new alloc (some (Texture.new 512 512 bytes))
              (kd.map fun rgb => Colour.new (u8OfF32 (rgb.1 * 255))
                (u8OfF32 (rgb.2.1 * 255)) (u8OfF32 (rgb.2.2 * 255)) 0xFF) none true with
          | none =>
            simp only [hmn]
            constructor
            · intro _
              obtain ⟨hal1, hlen1⟩ := (material_new_texture_none_iff alloc _ none true _).mp hmn
              have hlen2 : bytes.length < 512 * 512 * 4 := by
                have h2 : bytes.length < 512 * 512 * 32 / 8 := hlen1
                omega
              exact Or.inr (Or.inr (Or.inr ⟨⟨kd, some pth⟩, pth, bytes, rfl, rfl, hrf, hal1,
                hlen2⟩))
            · intro _
              trivial
          | some mat =>
            simp only [hmn]
            constructor
            · intro hcontra
              exact Option.noConfusion hcontra
            · rintro (⟨n, hn⟩ | ⟨m1, p1, hm1, hmk1, hrf1⟩ | ⟨p, hpmem, hi⟩ |
                ⟨m1, p1, b1, hm1, hmk1, hrf1, hal1, hlen1⟩)
              · exact ObjMaterial.noConfusion (Option.some.inj hn)
              · have h9 := Option.some.inj hm1
                injection h9 with h10
                subst h10
                have h11 := Option.some.inj hmk1
                subst h11
                exact Option.noConfusion (hrf.symm.trans hrf1)
              · exact Option.noConfusion
                  (((hpm polys).mpr ⟨p, hpmem, hi⟩).symm.trans hp)
              · have h9 := Option.some.inj hm1
                injection h9 with h10
                subst h10
                have h11 := Option.some.inj hmk1
                subst h11
                have h12 := Option.some.inj (hrf.symm.trans hrf1)
                subst h12
                have hlen2 : (Texture.new 512 512 bytes).data.length <
                    (Texture.new 512 512 bytes).width * (Texture.new 512 512 bytes).height *
                      32 / 8 := by
                  show bytes.length < 512 * 512 * 32 / 8
                  omega
                have hnone := (material_new_texture_none_iff alloc
                  (kd.map fun rgb => Colour.new (u8OfF32 (rgb.1 * 255))
                    (u8OfF32 (rgb.2.1 * 255)) (u8OfF32 (rgb.2.2 * 255)) 0xFF) none true
                  (Texture.new 512 512 bytes)).mpr ⟨hal1, hlen2⟩
                exact Option.noConfusion (hnone.symm.trans hmn)

/-- Claim C8, counterexample: a document that loads and parses, whose MTL
load succeeds, with no indirect material reference and no texture-map
reference at all, still aborts parse_obj: its only face references
position index 0 while the position array is empty. -/
theorem c8_fatal_cex :
    parse_obj envC8 = none ∧ envC8.load = some objC8 ∧ envC8.mtlsOk = true ∧
      anyRefMaterial objC8 = false ∧ anyMapKd objC8 = false := by
  decide

/-- Claim C8, amended: parse_obj fails fatally (returns no partial result)
in exactly these cases: the OBJ file cannot be read or parsed, the MTL
load fails, a texture-map file referenced by the material library cannot
be read, a group material is an indirect reference, a face references an
out-of-range vertex or texture-coordinate index among its first three
vertex references, or a read texture-map file holds fewer than 512*512*4
bytes while GPU texture allocation succeeds (the upload assertion). -/
theorem c8_fatal_amended (env : Env) : parse_obj env = none ↔ parseFatal env := by
  rcases env with ⟨load, mtlsOk, rf, alloc⟩
  rcases load with _ | obj
  · simp [parse_obj, parseFatal]
  · rcases mtlsOk
    case false => simp [parse_obj, parseFatal]
    case true =>
      simp only [parse_obj, if_true]
      rw [panicMap_eq_none_iff]
      constructor
      · rintro ⟨o, ho, hFo⟩
        cases hg : panicMap (processGroup alloc rf (obj.position.map vec3OfArr)
            (obj.texture.map texRemap)) o.groups with
        | none =>
          obtain ⟨g, hgg, hpg⟩ := panicMap_eq_none_iff.mp hg
          exact Or.inr (Or.inr ⟨obj, rfl, o, ho, g, hgg,
            (processGroup_fatal_iff alloc rf obj g).mp hpg⟩)
        | some shapes =>
          rw [hg] at hFo
          exact Option.noConfusion hFo
      · intro hfatal
        rcases hfatal with h | h | ⟨obj2, hobj2, o, ho, g, hgg, hgf⟩
        · exact Option.noConfusion h
        · exact Bool.noConfusion h
        · obtain rfl : obj2 = obj := (Option.some.inj hobj2).symm
          refine ⟨o, ho, ?_⟩
          have hg : panicMap (processGroup alloc rf (obj2.position.map vec3OfArr)
              (obj2.texture.map texRemap)) o.groups = none :=
            panicMap_eq_none_iff.mpr ⟨g, hgg,
              (processGroup_fatal_iff alloc rf obj2 g).mpr hgf⟩
          rw [hg]

end DrawTrongle
